import Mathlib

/-!
Shallow embedding of `src/data/data_ingestion.py` (emotion-detection data
ingestion pipeline) and proofs about its specified behaviour.

The pipeline: load a split fraction from a YAML config, read a CSV into a
dataframe, filter/recode sentiments, split train/test with a seeded shuffle,
and save both parts as CSV files.  Dataframes are modelled as a header row
(list of column names) plus a list of rows, each row a list of cell values
(strings or integers, since the sentiment column is recoded from strings to
integers).
-/

namespace DataIngestion

/-- Cell value of a dataframe: pandas cells here are strings (ids, text,
sentiment labels) or integers (recoded sentiment). -/
inductive Value where
  | str : String → Value
  | int : Int → Value
deriving DecidableEq, Repr

/-- In-memory dataframe: column names plus rows of cells, each row aligned
positionally with `cols`. -/
structure Table where
  cols : List String
  rows : List (List Value)
deriving DecidableEq, Repr

/-- Message of the Python `KeyError` raised when a column or dict key is
absent. -/
def keyErrorMsg (c : String) : String := "KeyError: " ++ c

/-- Index of the first column with the given name, as pandas label lookup
does (`None` when the label is absent, which surfaces as a `KeyError`). -/
def idxOfCol : List String → String → Option Nat
  | [], _ => none
  | s :: ss, c => if s = c then some 0 else (idxOfCol ss c).map (· + 1)

/-- Embedding of `df.drop(columns=[c])`: remove the column, or fail with a
`KeyError` naming it when it is absent. -/
def dropColumn (t : Table) (c : String) : Except String Table :=
  match idxOfCol t.cols c with
  | none => .error (keyErrorMsg c)
  | some i => .ok ⟨t.cols.eraseIdx i, t.rows.map (fun r => r.eraseIdx i)⟩

/-- Index of a column, failing with a `KeyError` when absent (embedding of
`df[c]` label lookup). -/
def colIndex (t : Table) (c : String) : Except String Nat :=
  match idxOfCol t.cols c with
  | none => .error (keyErrorMsg c)
  | some i => .ok i

/-- Cell of a row at a column index (rows are rectangular in pandas; a
default keeps the function total). -/
def cell (r : List Value) (i : Nat) : Value := r.getD i (Value.str "")

/-- Embedding of `df['sentiment'].isin(['happiness', 'sadness'])` applied to
one cell. -/
def isTargetSentiment (v : Value) : Bool :=
  v == Value.str "happiness" || v == Value.str "sadness"

/-- Embedding of `.replace({'happiness': 1, 'sadness': 0})` on one cell:
unmatched values are left unchanged, as pandas `replace` does. -/
def recodeSentiment (v : Value) : Value :=
  if v = Value.str "happiness" then Value.int 1
  else if v = Value.str "sadness" then Value.int 0
  else v

/-- Embedding of `process_data(df)`.  The Python function mutates its
argument (`df.drop(columns=['tweet_id'], inplace=True)`), so the embedding
returns the pair (state of the caller's dataframe after the call, returned
`final_df`).  Steps, as in the source: drop `tweet_id` in place, keep rows
whose `sentiment` is `happiness` or `sadness`, recode those two labels to
1 and 0, return the filtered frame.  A missing column raises `KeyError`. -/
def process_data (df : Table) : Except String (Table × Table) := do
  let df' ← dropColumn df "tweet_id"
  let i ← colIndex df' "sentiment"
  let kept := df'.rows.filter (fun r => isTargetSentiment (cell r i))
  let recoded := kept.map (fun r => r.set i (recodeSentiment (cell r i)))
  pure (df', ⟨df'.cols, recoded⟩)

/-- Linear congruential step, standing in for numpy's seeded Mersenne
Twister state update inside `train_test_split(..., random_state=42)`.  The
claims under verification depend only on the shuffle being a seeded
deterministic permutation, not on the exact stream. -/
def lcg (x : Nat) : Nat := (1103515245 * x + 12345) % 2 ^ 31

/-- Fisher-Yates style shuffle driven by `lcg`, with fuel for structural
recursion: at each step one position of the remaining list is chosen from
the pseudo-random state and moved to the front. -/
def shuffleAux : Nat → Nat → List Nat → List Nat
  | 0, _, _ => []
  | _ + 1, _, [] => []
  | fuel + 1, s, x :: xs =>
      (x :: xs).getD (s % (x :: xs).length) 0 ::
        shuffleAux fuel (lcg s) ((x :: xs).eraseIdx (s % (x :: xs).length))

/-- Seeded pseudo-random permutation of `0, ..., n-1`, the model of
`numpy.random.RandomState(seed).permutation(n)` used by sklearn's
`train_test_split` to assign rows to the two sides. -/
def permIndices (seed n : Nat) : List Nat := shuffleAux n (lcg seed) (List.range n)

/-- Rows of a dataframe selected by a list of positional indices
(`df.iloc[idxs]`). -/
def selectRows (rows : List (List Value)) (idxs : List Nat) : List (List Value) :=
  idxs.filterMap (fun i => rows[i]?)

/-- Number of test rows chosen by sklearn for a float `test_size`:
`ceil(test_size * n_samples)`, written with integer operations on the
fraction's numerator and denominator so that it evaluates. -/
def nTestOf (f : ℚ) (n : Nat) : Nat := (-((-(f.num * n)) / (f.den : Int))).toNat

/-- Embedding of `train_test_split(df, test_size=f, random_state=seed)`.
sklearn validates that a float `test_size` lies strictly inside (0,1) and
that the resulting train side is nonempty, computes
`n_test = ceil(f * n)`, draws a seeded permutation of the row indices, and
returns `(train, test)` where the test side takes the first `n_test`
permuted indices and the train side the rest. -/
def train_test_split (t : Table) (f : ℚ) (seed : Nat) : Except String (Table × Table) :=
  if 0 < f ∧ f < 1 then
    if t.rows.length - nTestOf f t.rows.length = 0 then
      .error "ValueError: the resulting train set will be empty"
    else
      .ok (⟨t.cols, selectRows t.rows
              ((permIndices seed t.rows.length).drop (nTestOf f t.rows.length))⟩,
           ⟨t.cols, selectRows t.rows
              ((permIndices seed t.rows.length).take (nTestOf f t.rows.length))⟩)
  else
    .error "ValueError: test_size should be a float in the (0, 1) range"

/-- Parsed YAML value: a number or a nested dictionary, which is all the
params file uses. -/
inductive YamlVal where
  | num : ℚ → YamlVal
  | dict : List (String × YamlVal) → YamlVal

/-- Lookup in a parsed YAML dictionary, first binding wins. -/
def dictGet : List (String × YamlVal) → String → Option YamlVal
  | [], _ => none
  | (k, v) :: kvs, key => if k = key then some v else dictGet kvs key

/-- Embedding of Python dict subscripting `y[k]`: a missing key raises
`KeyError`, subscripting a non-dictionary raises `TypeError`. -/
def subscript (y : YamlVal) (k : String) : Except String YamlVal :=
  match y with
  | .dict kvs =>
      match dictGet kvs k with
      | some v => .ok v
      | none => .error (keyErrorMsg k)
  | .num _ => .error "TypeError: value is not subscriptable"

/-- Embedding of `load_params(params_path)`: the file contents stand in for
the path (`none` models a missing file raising `FileNotFoundError`); the
function reads `params['data_ingestion']['test_size']` and returns it,
re-raising any error.  The embedding types the returned scalar as a
rational, rejecting a non-numeric value at the key. -/
def load_params (fileContents : Option YamlVal) : Except String ℚ :=
  match fileContents with
  | none => .error "FileNotFoundError"
  | some params => do
    let section_ ← subscript params "data_ingestion"
    let ts ← subscript section_ "test_size"
    match ts with
    | .num q => .ok q
    | .dict _ => .error "TypeError: test_size is not a number"

/-- Embedding of `read_data(url)`: the outcome of the network fetch and CSV
parse is supplied by the environment, and the function returns it as-is,
re-raising any error. -/
def read_data (fetched : Except String Table) : Except String Table := fetched

/-- Embedding of `save_data(data_path, train_data, test_data)`: writes the
two dataframes as `train.csv` and `test.csv` under `data_path` with
`index=False`, so exactly the columns and rows of each table are written
and no row-index column is added.  The result lists the files written. -/
def save_data (data_path : String) (train_data test_data : Table) :
    List (String × Table) :=
  [(data_path ++ "/train.csv", train_data), (data_path ++ "/test.csv", test_data)]

/-- Observable outcome of one run of `main()`: whether an exception escaped
to the caller, what error (if any) the `except` block logged, and which
files were written. -/
structure MainResult where
  raisedToCaller : Option String
  errorLogged : Option String
  filesWritten : List (String × Table)

/-- Body of the `try` block of `main()`: load params, read data, process,
split with `random_state=42`, and name the files to write.  Each stage's
error propagates and aborts the rest, exactly as exceptions do. -/
def pipelineCore (cfg : Option YamlVal) (fetched : Except String Table) :
    Except String (Table × Table) := do
  let test_size ← load_params cfg
  let df ← read_data fetched
  let p ← process_data df
  let st ← train_test_split p.2 test_size 42
  pure st

/-- Embedding of `main()`: run the pipeline; on success save the split under
`data/raw`; on any error, the `except Exception` block logs it and `main`
falls through to normal completion — nothing is re-raised and no failure
is signalled to the caller. -/
def main (cfg : Option YamlVal) (fetched : Except String Table) : MainResult :=
  match pipelineCore cfg fetched with
  | .ok (train_data, test_data) =>
      { raisedToCaller := none, errorLogged := none,
        filesWritten := save_data ("data" ++ "/" ++ "raw") train_data test_data }
  | .error e =>
      { raisedToCaller := none, errorLogged := some e, filesWritten := [] }

/-- Record view of the input data as the specification describes it: an
identifier, a text, and a label. -/
structure SpecRecord where
  rid : Value
  text : Value
  label : Value

/-- Specification-side filter-and-recode, written from the spec's words:
retain records labelled `happiness` or `sadness`, recode those labels to 1
and 0, keep the text untouched, drop everything else.  Used to compare the
source's `process_data` against the specified behaviour. -/
def filterAndRecodeSpec (rs : List SpecRecord) : List (Value × Value) :=
  (rs.filter (fun r =>
      decide (r.label = Value.str "happiness" ∨ r.label = Value.str "sadness"))).map
    (fun r => (r.text, if r.label = Value.str "happiness" then Value.int 1 else Value.int 0))

/-- Dataframe with the source CSV's schema holding the given records. -/
def toTable (rs : List SpecRecord) : Table :=
  ⟨["tweet_id", "text", "sentiment"], rs.map (fun r => [r.rid, r.text, r.label])⟩

/-- Four-row concrete dataframe with the source CSV's columns. -/
def sampleDf : Table :=
  ⟨["tweet_id", "text", "sentiment"],
   [[Value.str "1", Value.str "a", Value.str "happiness"],
    [Value.str "2", Value.str "b", Value.str "sadness"],
    [Value.str "3", Value.str "c", Value.str "neutral"],
    [Value.str "4", Value.str "d", Value.str "happiness"]]⟩

/-- Concrete dataframe with the columns the specification's schema names
(`id`, `text`, `sentiment`) but no `tweet_id` column. -/
def specColsDf : Table :=
  ⟨["id", "text", "sentiment"],
   [[Value.str "1", Value.str "a", Value.str "happiness"]]⟩

/-- Concrete dataframe with `tweet_id` and `sentiment` but no `text`. -/
def noTextDf : Table :=
  ⟨["tweet_id", "sentiment"],
   [[Value.str "1", Value.str "happiness"], [Value.str "2", Value.str "sadness"]]⟩

/-- Concrete dataframe carrying an extra column beyond the required three. -/
def extraColDf : Table :=
  ⟨["tweet_id", "text", "sentiment", "extra"],
   [[Value.str "1", Value.str "a", Value.str "happiness", Value.str "x"],
    [Value.str "2", Value.str "b", Value.str "sadness", Value.str "y"],
    [Value.str "3", Value.str "c", Value.str "happiness", Value.str "z"],
    [Value.str "4", Value.str "d", Value.str "sadness", Value.str "w"]]⟩

/-- Concrete three-row dataframe used to compare the split's test-side size
with the specification's rounding formula. -/
def threeRowDf : Table :=
  ⟨["text", "sentiment"],
   [[Value.str "a", Value.int 1], [Value.str "b", Value.int 0],
    [Value.str "c", Value.int 1]]⟩

/-- Concrete eight-row dataframe matching the spec's scenario of the
filtered table (labels alternate 1,0). -/
def eightRowDf : Table :=
  ⟨["text", "sentiment"],
   [[Value.str "a", Value.int 1], [Value.str "b", Value.int 0],
    [Value.str "c", Value.int 1], [Value.str "d", Value.int 0],
    [Value.str "e", Value.int 1], [Value.str "f", Value.int 0],
    [Value.str "g", Value.int 1], [Value.str "h", Value.int 0]]⟩

/-- Well-formed params file contents: `data_ingestion.test_size = 1/4`. -/
def cfgOk : YamlVal :=
  .dict [("data_ingestion", .dict [("test_size", .num (Rat.divInt 1 4))])]

/-- Params file contents whose `data_ingestion` section lacks `test_size`. -/
def cfgMissingTestSize : YamlVal :=
  .dict [("data_ingestion", .dict [("other", .num 1)])]

end DataIngestion

namespace DataIngestion


/-! ### Helper lemmas about column lookup and dropping -/

theorem idxOfCol_eq_none_iff {l : List String} {c : String} :
    idxOfCol l c = none ↔ c ∉ l := by
  induction l with
  | nil => simp [idxOfCol]
  | cons s ss ih =>
    by_cases h : s = c
    · subst h
      simp [idxOfCol]
    · rw [idxOfCol, if_neg h, Option.map_eq_none', ih]
      constructor
      · intro hc
        simp only [List.mem_cons, not_or]
        exact ⟨fun e => h e.symm, hc⟩
      · intro hc
        simp only [List.mem_cons, not_or] at hc
        exact hc.2

theorem idxOfCol_isSome_of_mem {l : List String} {c : String} (h : c ∈ l) :
    ∃ i, idxOfCol l c = some i := by
  cases hi : idxOfCol l c with
  | none => exact absurd (idxOfCol_eq_none_iff.mp hi) (not_not_intro h)
  | some i => exact ⟨i, rfl⟩

theorem eraseIdx_of_idxOfCol {l : List String} {c : String} {i : Nat}
    (h : idxOfCol l c = some i) : l.eraseIdx i = l.erase c := by
  induction l generalizing i with
  | nil => simp [idxOfCol] at h
  | cons s ss ih =>
    by_cases hs : s = c
    · rw [idxOfCol, if_pos hs] at h
      cases h
      subst hs
      simp [List.eraseIdx]
    · rw [idxOfCol, if_neg hs] at h
      cases hj : idxOfCol ss c with
      | none => rw [hj] at h; simp at h
      | some j =>
        rw [hj] at h
        simp only [Option.map_some'] at h
        cases h
        have herase : (s :: ss).erase c = s :: ss.erase c := by
          rw [List.erase_cons_tail]
          simp [hs]
        rw [herase, List.eraseIdx_cons_succ, ih hj]

theorem mem_of_idxOfCol {l : List String} {c : String} {i : Nat}
    (h : idxOfCol l c = some i) : c ∈ l := by
  by_contra hc
  rw [← idxOfCol_eq_none_iff] at hc
  simp [hc] at h

theorem dropColumn_error {t : Table} {c : String} (h : c ∉ t.cols) :
    dropColumn t c = .error (keyErrorMsg c) := by
  rw [dropColumn, idxOfCol_eq_none_iff.mpr h]

theorem dropColumn_ok {t : Table} {c : String} {i : Nat}
    (h : idxOfCol t.cols c = some i) :
    dropColumn t c = .ok ⟨t.cols.erase c, t.rows.map (fun r => r.eraseIdx i)⟩ := by
  rw [← eraseIdx_of_idxOfCol h, dropColumn, h]

theorem colIndex_error {t : Table} {c : String} (h : c ∉ t.cols) :
    colIndex t c = .error (keyErrorMsg c) := by
  rw [colIndex, idxOfCol_eq_none_iff.mpr h]

theorem colIndex_ok {t : Table} {c : String} {i : Nat}
    (h : idxOfCol t.cols c = some i) : colIndex t c = .ok i := by
  rw [colIndex, h]

theorem except_bind_ok {ε α β : Type} (a : α) (f : α → Except ε β) :
    (Except.ok a >>= f) = f a := rfl

theorem except_bind_error {ε α β : Type} (e : ε) (f : α → Except ε β) :
    ((Except.error e : Except ε α) >>= f) = Except.error e := rfl

theorem process_data_eq_of_drop_error {t : Table} {e : String}
    (hd : dropColumn t "tweet_id" = .error e) : process_data t = .error e := by
  rw [process_data, hd, except_bind_error]

theorem process_data_eq_of_col_error {t df' : Table} {e : String}
    (hd : dropColumn t "tweet_id" = .ok df')
    (hc : colIndex df' "sentiment" = .error e) : process_data t = .error e := by
  rw [process_data, hd, except_bind_ok, hc, except_bind_error]

theorem process_data_eq_of_ok {t df' : Table} {i : Nat}
    (hd : dropColumn t "tweet_id" = .ok df')
    (hc : colIndex df' "sentiment" = .ok i) :
    process_data t = .ok (df', ⟨df'.cols,
      (df'.rows.filter (fun r => isTargetSentiment (cell r i))).map
        (fun r => r.set i (recodeSentiment (cell r i)))⟩) := by
  rw [process_data, hd, except_bind_ok, hc, except_bind_ok]
  rfl

theorem process_data_ok_inv {t d out : Table}
    (h : process_data t = .ok (d, out)) :
    ∃ i j, idxOfCol t.cols "tweet_id" = some i ∧
      d = ⟨t.cols.erase "tweet_id", t.rows.map (fun r => r.eraseIdx i)⟩ ∧
      idxOfCol (t.cols.erase "tweet_id") "sentiment" = some j ∧
      out = ⟨t.cols.erase "tweet_id",
        ((t.rows.map (fun r => r.eraseIdx i)).filter
            (fun r => isTargetSentiment (cell r j))).map
          (fun r => r.set j (recodeSentiment (cell r j)))⟩ := by
  cases hi : idxOfCol t.cols "tweet_id" with
  | none =>
    rw [process_data_eq_of_drop_error
      (dropColumn_error (idxOfCol_eq_none_iff.mp hi))] at h
    cases h
  | some i =>
    have hd := dropColumn_ok hi
    cases hj : idxOfCol (t.cols.erase "tweet_id") "sentiment" with
    | none =>
      have hns : "sentiment" ∉
          (⟨t.cols.erase "tweet_id",
            t.rows.map (fun r => r.eraseIdx i)⟩ : Table).cols :=
        idxOfCol_eq_none_iff.mp hj
      rw [process_data_eq_of_col_error hd (colIndex_error hns)] at h
      cases h
    | some j =>
      have hc : colIndex (⟨t.cols.erase "tweet_id",
          t.rows.map (fun r => r.eraseIdx i)⟩ : Table) "sentiment" = .ok j :=
        colIndex_ok hj
      rw [process_data_eq_of_ok hd hc] at h
      injection h with h
      injection h with h1 h2
      exact ⟨i, j, rfl, h1.symm, rfl, h2.symm⟩

theorem process_data_error_no_tweet_id {t : Table} (h : "tweet_id" ∉ t.cols) :
    process_data t = .error (keyErrorMsg "tweet_id") :=
  process_data_eq_of_drop_error (dropColumn_error h)

theorem process_data_error_no_sentiment {t : Table}
    (h1 : "tweet_id" ∈ t.cols) (h2 : "sentiment" ∉ t.cols) :
    process_data t = .error (keyErrorMsg "sentiment") := by
  obtain ⟨i, hi⟩ := idxOfCol_isSome_of_mem h1
  have hns : "sentiment" ∉
      (⟨t.cols.erase "tweet_id",
        t.rows.map (fun r => r.eraseIdx i)⟩ : Table).cols := by
    intro hmem
    exact h2 (List.mem_of_mem_erase hmem)
  exact process_data_eq_of_col_error (dropColumn_ok hi) (colIndex_error hns)

theorem process_data_ok {t : Table}
    (h1 : "tweet_id" ∈ t.cols) (h2 : "sentiment" ∈ t.cols) :
    ∃ d out, process_data t = .ok (d, out) := by
  obtain ⟨i, hi⟩ := idxOfCol_isSome_of_mem h1
  have h2' : "sentiment" ∈ t.cols.erase "tweet_id" :=
    (List.mem_erase_of_ne (by decide)).mpr h2
  obtain ⟨j, hj⟩ := idxOfCol_isSome_of_mem h2'
  have hc : colIndex (⟨t.cols.erase "tweet_id",
      t.rows.map (fun r => r.eraseIdx i)⟩ : Table) "sentiment" = .ok j :=
    colIndex_ok hj
  exact ⟨_, _, process_data_eq_of_ok (dropColumn_ok hi) hc⟩

/-! ### Claims C5 and C10: the schema process_data actually requires -/

/-- Claim C5, counterexample: a table that carries exactly the columns the
spec names (`id`, `text`, `sentiment`) makes `process_data` fail with a
`KeyError` for `tweet_id`, although the claim says the call succeeds
whenever `id`, `text` and `sentiment` are all present. -/
theorem c5_counterexample :
    "id" ∈ specColsDf.cols ∧ "text" ∈ specColsDf.cols ∧
    "sentiment" ∈ specColsDf.cols ∧
    process_data specColsDf = .error (keyErrorMsg "tweet_id") := by
  refine ⟨by decide, by decide, by decide, by rfl⟩

/-- Claim C5 as amended: `process_data` requires the columns `tweet_id` and
`sentiment` (not `id`, `text`, `sentiment`): it succeeds whenever those two
are present, fails with a missing-column `KeyError` naming `tweet_id` when
that column is absent, and naming `sentiment` when `tweet_id` is present
but `sentiment` is absent. -/
theorem c5_theorem (t : Table) :
    ("tweet_id" ∈ t.cols → "sentiment" ∈ t.cols →
      (process_data t).isOk = true) ∧
    ("tweet_id" ∉ t.cols →
      process_data t = .error (keyErrorMsg "tweet_id")) ∧
    ("tweet_id" ∈ t.cols → "sentiment" ∉ t.cols →
      process_data t = .error (keyErrorMsg "sentiment")) := by
  refine ⟨fun h1 h2 => ?_, fun h => ?_, fun h1 h2 => ?_⟩
  · obtain ⟨d, out, hok⟩ := process_data_ok h1 h2
    rw [hok]
    rfl
  · rw [process_data_error_no_tweet_id h]
  · rw [process_data_error_no_sentiment h1 h2]

/-- Witness for claim C5's amended theorem at concrete tables. -/
theorem c5_theorem_witness :
    (process_data noTextDf).isOk = true ∧
    process_data specColsDf = .error (keyErrorMsg "tweet_id") :=
  ⟨(c5_theorem noTextDf).1 (by decide) (by decide),
   (c5_theorem specColsDf).2.1 (by decide)⟩

/-- Claim C10: the schema `process_data` actually requires is a `tweet_id`
column and a `sentiment` column: it succeeds on every table containing
those two (even with no `text` column), and fails with a `KeyError` naming
`tweet_id` on every table lacking `tweet_id` (even one carrying the spec's
`id`/`text`/`sentiment` schema). -/
theorem c10_theorem (t : Table) :
    ("tweet_id" ∈ t.cols → "sentiment" ∈ t.cols →
      (process_data t).isOk = true) ∧
    ("tweet_id" ∉ t.cols →
      process_data t = .error (keyErrorMsg "tweet_id")) := by
  refine ⟨fun h1 h2 => ?_, fun h => ?_⟩
  · obtain ⟨d, out, hok⟩ := process_data_ok h1 h2
    rw [hok]
    rfl
  · rw [process_data_error_no_tweet_id h]

/-- Witness for claim C10 at concrete tables: success with no `text`
column, failure with an `id` column but no `tweet_id`. -/
theorem c10_theorem_witness :
    (process_data noTextDf).isOk = true ∧
    process_data specColsDf = .error (keyErrorMsg "tweet_id") ∧
    "text" ∉ noTextDf.cols ∧ "id" ∈ specColsDf.cols :=
  ⟨(c10_theorem noTextDf).1 (by decide) (by decide),
   (c10_theorem specColsDf).2 (by decide), by decide, by decide⟩

/-! ### Claim C6: process_data mutates its input dataframe -/

/-- Claim C6, counterexample: after a successful `process_data` call on the
four-row sample, the caller's dataframe (first component of the result) has
lost its `tweet_id` column, so the input was not left unchanged. -/
theorem c6_counterexample :
    "tweet_id" ∈ sampleDf.cols ∧
    (process_data sampleDf).map Prod.fst =
      .ok ⟨["text", "sentiment"],
        [[Value.str "a", Value.str "happiness"],
         [Value.str "b", Value.str "sadness"],
         [Value.str "c", Value.str "neutral"],
         [Value.str "d", Value.str "happiness"]]⟩ ∧
    (⟨["text", "sentiment"],
        [[Value.str "a", Value.str "happiness"],
         [Value.str "b", Value.str "sadness"],
         [Value.str "c", Value.str "neutral"],
         [Value.str "d", Value.str "happiness"]]⟩ : Table) ≠ sampleDf ∧
    "tweet_id" ∉ (["text", "sentiment"] : List String) := by
  refine ⟨by decide, by rfl, by decide, by decide⟩

/-- Claim C6 as amended: `process_data` does mutate the caller's dataframe:
whenever the call succeeds (and the input's column names are distinct), the
caller's table has lost its `tweet_id` column in place, while its rows are
still all present (same row count, each row with the `tweet_id` cell
removed). -/
theorem c6_theorem {t d out : Table} (h : process_data t = .ok (d, out))
    (hnd : t.cols.Nodup) :
    "tweet_id" ∈ t.cols ∧ "tweet_id" ∉ d.cols ∧
    d.rows.length = t.rows.length := by
  obtain ⟨i, j, hi, hdx, hj, hout⟩ := process_data_ok_inv h
  refine ⟨mem_of_idxOfCol hi, ?_, by rw [hdx]; simp⟩
  rw [hdx]
  intro hmem
  exact ((List.Nodup.mem_erase_iff hnd).mp hmem).1 rfl

/-- Witness for claim C6's amended theorem at the concrete sample. -/
theorem c6_theorem_witness :
    "tweet_id" ∈ sampleDf.cols ∧
    "tweet_id" ∉ (⟨["text", "sentiment"],
        [[Value.str "a", Value.str "happiness"],
         [Value.str "b", Value.str "sadness"],
         [Value.str "c", Value.str "neutral"],
         [Value.str "d", Value.str "happiness"]]⟩ : Table).cols ∧
    (⟨["text", "sentiment"],
        [[Value.str "a", Value.str "happiness"],
         [Value.str "b", Value.str "sadness"],
         [Value.str "c", Value.str "neutral"],
         [Value.str "d", Value.str "happiness"]]⟩ : Table).rows.length =
      sampleDf.rows.length :=
  @c6_theorem sampleDf
    ⟨["text", "sentiment"],
      [[Value.str "a", Value.str "happiness"],
       [Value.str "b", Value.str "sadness"],
       [Value.str "c", Value.str "neutral"],
       [Value.str "d", Value.str "happiness"]]⟩
    ⟨["text", "sentiment"],
      [[Value.str "a", Value.int 1],
       [Value.str "b", Value.int 0],
       [Value.str "d", Value.int 1]]⟩
    (by rfl) (by decide)

/-! ### Permutation facts about the seeded shuffle and row selection -/

theorem cons_getD_eraseIdx_perm (l : List Nat) (j : Nat) (h : j < l.length) :
    (l.getD j 0 :: l.eraseIdx j).Perm l := by
  induction l generalizing j with
  | nil => simp at h
  | cons a t ih =>
    cases j with
    | zero => simp [List.eraseIdx]
    | succ j =>
      have hj : j < t.length := by simpa using h
      rw [List.eraseIdx_cons_succ, List.getD_cons_succ]
      exact List.Perm.trans
        (List.Perm.swap a (t.getD j 0) (t.eraseIdx j))
        (List.Perm.cons a (ih j hj))

theorem shuffleAux_perm (fuel : Nat) :
    ∀ (s : Nat) (l : List Nat), l.length ≤ fuel → (shuffleAux fuel s l).Perm l := by
  induction fuel with
  | zero =>
    intro s l h
    have : l = [] := List.eq_nil_of_length_eq_zero (Nat.le_zero.mp h)
    subst this
    rfl
  | succ fuel ih =>
    intro s l h
    cases l with
    | nil => rfl
    | cons x xs =>
      have hj : s % (x :: xs).length < (x :: xs).length :=
        Nat.mod_lt _ (by simp)
      have hlen : ((x :: xs).eraseIdx (s % (x :: xs).length)).length ≤ fuel := by
        rw [List.length_eraseIdx_of_lt hj]
        have hl : (x :: xs).length ≤ fuel + 1 := h
        omega
      exact ((ih (lcg s) _ hlen).cons _).trans
        (cons_getD_eraseIdx_perm (x :: xs) _ hj)

theorem permIndices_perm (seed n : Nat) :
    (permIndices seed n).Perm (List.range n) :=
  shuffleAux_perm n (lcg seed) (List.range n) (by simp)

theorem permIndices_length (seed n : Nat) : (permIndices seed n).length = n := by
  rw [(permIndices_perm seed n).length_eq, List.length_range]

theorem permIndices_mem_lt {seed n i : Nat} (h : i ∈ permIndices seed n) :
    i < n :=
  List.mem_range.mp ((permIndices_perm seed n).mem_iff.mp h)

theorem permIndices_nodup (seed n : Nat) : (permIndices seed n).Nodup :=
  (List.Perm.nodup_iff (permIndices_perm seed n)).mpr (List.nodup_range n)

theorem selectRows_append (rows : List (List Value)) (l1 l2 : List Nat) :
    selectRows rows (l1 ++ l2) = selectRows rows l1 ++ selectRows rows l2 := by
  simp [selectRows]

theorem selectRows_length {rows : List (List Value)} {idxs : List Nat}
    (h : ∀ i ∈ idxs, i < rows.length) :
    (selectRows rows idxs).length = idxs.length := by
  induction idxs with
  | nil => rfl
  | cons i is ih =>
    have hi : i < rows.length := h i (by simp)
    rw [selectRows, List.filterMap_cons, List.getElem?_eq_getElem hi]
    simp only [List.length_cons]
    rw [← selectRows, ih (fun k hk => h k (by simp [hk]))]

theorem selectRows_range (rows : List (List Value)) :
    selectRows rows (List.range rows.length) = rows := by
  induction rows with
  | nil => rfl
  | cons r rs ih =>
    rw [List.length_cons, List.range_succ_eq_map, selectRows, List.filterMap_cons]
    simp only [List.getElem?_cons_zero]
    rw [List.filterMap_map]
    have hfun : ((fun i => (r :: rs)[i]?) ∘ Nat.succ) = fun i => rs[i]? := by
      funext i
      simp
    rw [hfun, ← selectRows, ih]

/-- Inversion of a successful `train_test_split` call: the validation
passed and the two sides are the selected permuted rows. -/
theorem train_test_split_ok_inv {t : Table} {f : ℚ} {seed : Nat}
    {tr te : Table} (h : train_test_split t f seed = .ok (tr, te)) :
    0 < f ∧ f < 1 ∧ nTestOf f t.rows.length < t.rows.length ∧
    tr = ⟨t.cols, selectRows t.rows
      ((permIndices seed t.rows.length).drop (nTestOf f t.rows.length))⟩ ∧
    te = ⟨t.cols, selectRows t.rows
      ((permIndices seed t.rows.length).take (nTestOf f t.rows.length))⟩ := by
  rw [train_test_split] at h
  by_cases h1 : 0 < f ∧ f < 1
  · rw [if_pos h1] at h
    by_cases h2 : t.rows.length - nTestOf f t.rows.length = 0
    · rw [if_pos h2] at h
      cases h
    · rw [if_neg h2] at h
      injection h with h
      injection h with htr hte
      exact ⟨h1.1, h1.2, by omega, htr.symm, hte.symm⟩
  · rw [if_neg h1] at h
    cases h

/-- The integer form of the test-side size agrees with the real ceiling
`⌈f * n⌉` that sklearn computes. -/
theorem nTestOf_eq_ceil (f : ℚ) (n : Nat) :
    nTestOf f n = (⌈f * (n : ℚ)⌉).toNat := by
  have hmul : -(f * (n : ℚ)) =
      ((-(f.num * (n : Int)) : Int) : ℚ) / ((f.den : Nat) : ℚ) := by
    conv_lhs => rw [← Rat.num_div_den f]
    push_cast
    ring
  have hceil : ⌈f * (n : ℚ)⌉ = -((-(f.num * (n : Int))) / (f.den : Int)) := by
    rw [← neg_neg ⌈f * (n : ℚ)⌉, ← Int.floor_neg, hmul,
      Rat.floor_intCast_div_natCast]
  rw [nTestOf, hceil]

/-! ### Claim C2: the split partitions the table -/

/-- Claim C2: whenever `train_test_split` returns a pair, the test and
train rows together are exactly the input rows (as a permutation, so no
duplication and no omission), the lengths add up to the input length, and
when the input rows are pairwise distinct the two sides are disjoint. -/
theorem c2_theorem {t : Table} {f : ℚ} {seed : Nat} {tr te : Table}
    (h : train_test_split t f seed = .ok (tr, te)) :
    (te.rows ++ tr.rows).Perm t.rows ∧
    te.rows.length + tr.rows.length = t.rows.length ∧
    (t.rows.Nodup → te.rows.Disjoint tr.rows) := by
  obtain ⟨hf0, hf1, hlt, htr, hte⟩ := train_test_split_ok_inv h
  subst htr hte
  have hperm := permIndices_perm seed t.rows.length
  have hu : (selectRows t.rows
        ((permIndices seed t.rows.length).take (nTestOf f t.rows.length)) ++
      selectRows t.rows
        ((permIndices seed t.rows.length).drop (nTestOf f t.rows.length))).Perm
      t.rows := by
    rw [← selectRows_append, List.take_append_drop]
    have h1 : (selectRows t.rows (permIndices seed t.rows.length)).Perm
        (selectRows t.rows (List.range t.rows.length)) :=
      List.Perm.filterMap _ hperm
    rw [selectRows_range t.rows] at h1
    exact h1
  refine ⟨hu, ?_, ?_⟩
  · have := hu.length_eq
    rw [List.length_append] at this
    exact this
  · intro hnd
    exact List.disjoint_of_nodup_append (hu.nodup_iff.mpr hnd)

/-- Witness for claim C2 at the eight-row table with fraction 1/4. -/
theorem c2_theorem_witness :
    ((⟨["text", "sentiment"],
        [[Value.str "d", Value.int 0], [Value.str "a", Value.int 1]]⟩ :
          Table).rows ++
      (⟨["text", "sentiment"],
        [[Value.str "h", Value.int 0], [Value.str "c", Value.int 1],
         [Value.str "g", Value.int 1], [Value.str "b", Value.int 0],
         [Value.str "f", Value.int 0], [Value.str "e", Value.int 1]]⟩ :
          Table).rows).Perm eightRowDf.rows ∧
    (⟨["text", "sentiment"],
        [[Value.str "d", Value.int 0], [Value.str "a", Value.int 1]]⟩ :
          Table).rows.length +
      (⟨["text", "sentiment"],
        [[Value.str "h", Value.int 0], [Value.str "c", Value.int 1],
         [Value.str "g", Value.int 1], [Value.str "b", Value.int 0],
         [Value.str "f", Value.int 0], [Value.str "e", Value.int 1]]⟩ :
          Table).rows.length = eightRowDf.rows.length ∧
    (eightRowDf.rows.Nodup →
      (⟨["text", "sentiment"],
        [[Value.str "d", Value.int 0], [Value.str "a", Value.int 1]]⟩ :
          Table).rows.Disjoint
        (⟨["text", "sentiment"],
          [[Value.str "h", Value.int 0], [Value.str "c", Value.int 1],
           [Value.str "g", Value.int 1], [Value.str "b", Value.int 0],
           [Value.str "f", Value.int 0], [Value.str "e", Value.int 1]]⟩ :
            Table).rows) :=
  @c2_theorem eightRowDf (Rat.divInt 1 4) 42
    ⟨["text", "sentiment"],
      [[Value.str "h", Value.int 0], [Value.str "c", Value.int 1],
       [Value.str "g", Value.int 1], [Value.str "b", Value.int 0],
       [Value.str "f", Value.int 0], [Value.str "e", Value.int 1]]⟩
    ⟨["text", "sentiment"],
      [[Value.str "d", Value.int 0], [Value.str "a", Value.int 1]]⟩
    (by rfl)

/-! ### Claim C3: determinism of the seeded split -/

/-- Claim C3: the split is deterministic under a fixed seed: two calls with
the same table, the same fraction and the same seed produce the same
train/test assignment. -/
theorem c3_theorem (t₁ t₂ : Table) (f₁ f₂ : ℚ) (s₁ s₂ : Nat)
    (ht : t₁ = t₂) (hf : f₁ = f₂) (hs : s₁ = s₂) :
    train_test_split t₁ f₁ s₁ = train_test_split t₂ f₂ s₂ := by
  rw [ht, hf, hs]

/-- Witness for claim C3 at concrete arguments. -/
theorem c3_theorem_witness :
    train_test_split eightRowDf (Rat.divInt 1 4) 42 =
      train_test_split eightRowDf (Rat.divInt 1 4) 42 :=
  c3_theorem eightRowDf eightRowDf (Rat.divInt 1 4) (Rat.divInt 1 4) 42 42
    rfl rfl rfl

/-! ### Claim C9: size of the test side -/

/-- Claim C9, counterexample: on a three-row table with fraction 2/5 the
split returns a test side of 2 rows (sklearn's `ceil(2/5 * 3) = 2`), while
the claim's formula `round(f * n)` gives `round(6/5) = 1`. -/
theorem c9_counterexample :
    (train_test_split threeRowDf (Rat.divInt 2 5) 42).map
        (fun p => ((p.1).rows.length, (p.2).rows.length)) = .ok (1, 2) ∧
    round (Rat.divInt 2 5 * (3 : ℚ)) = 1 ∧ (2 : Nat) ≠ 1 := by
  refine ⟨by rfl, ?_, by decide⟩
  rw [round_eq, Rat.divInt_eq_div]
  norm_num

/-- Claim C9 as amended: for every successful split the test side has
`⌈f * n⌉` rows (ceiling, not rounding) and the train side the remaining
`n - ⌈f * n⌉` rows. -/
theorem c9_theorem {t : Table} {f : ℚ} {seed : Nat} {tr te : Table}
    (h : train_test_split t f seed = .ok (tr, te)) :
    te.rows.length = (⌈f * (t.rows.length : ℚ)⌉).toNat ∧
    tr.rows.length = t.rows.length - te.rows.length := by
  obtain ⟨hf0, hf1, hlt, htr, hte⟩ := train_test_split_ok_inv h
  subst htr hte
  have hmemlt : ∀ i ∈ (permIndices seed t.rows.length).take
      (nTestOf f t.rows.length), i < t.rows.length :=
    fun i hi => permIndices_mem_lt (List.take_subset _ _ hi)
  have hmemlt' : ∀ i ∈ (permIndices seed t.rows.length).drop
      (nTestOf f t.rows.length), i < t.rows.length :=
    fun i hi => permIndices_mem_lt (List.drop_subset _ _ hi)
  have hte_len : (selectRows t.rows
      ((permIndices seed t.rows.length).take (nTestOf f t.rows.length))).length
      = nTestOf f t.rows.length := by
    rw [selectRows_length hmemlt, List.length_take, permIndices_length]
    omega
  have htr_len : (selectRows t.rows
      ((permIndices seed t.rows.length).drop (nTestOf f t.rows.length))).length
      = t.rows.length - nTestOf f t.rows.length := by
    rw [selectRows_length hmemlt', List.length_drop, permIndices_length]
  constructor
  · rw [hte_len, nTestOf_eq_ceil]
  · rw [hte_len, htr_len]

/-- Witness for claim C9's amended theorem, matching the spec's scenario:
eight rows at fraction 1/4 give a 2-row test side and a 6-row train
side. -/
theorem c9_theorem_witness :
    (⟨["text", "sentiment"],
        [[Value.str "d", Value.int 0], [Value.str "a", Value.int 1]]⟩ :
          Table).rows.length =
      (⌈Rat.divInt 1 4 * (eightRowDf.rows.length : ℚ)⌉).toNat ∧
    (⟨["text", "sentiment"],
        [[Value.str "h", Value.int 0], [Value.str "c", Value.int 1],
         [Value.str "g", Value.int 1], [Value.str "b", Value.int 0],
         [Value.str "f", Value.int 0], [Value.str "e", Value.int 1]]⟩ :
          Table).rows.length =
      eightRowDf.rows.length -
        (⟨["text", "sentiment"],
          [[Value.str "d", Value.int 0], [Value.str "a", Value.int 1]]⟩ :
            Table).rows.length :=
  @c9_theorem eightRowDf (Rat.divInt 1 4) 42
    ⟨["text", "sentiment"],
      [[Value.str "h", Value.int 0], [Value.str "c", Value.int 1],
       [Value.str "g", Value.int 1], [Value.str "b", Value.int 0],
       [Value.str "f", Value.int 0], [Value.str "e", Value.int 1]]⟩
    ⟨["text", "sentiment"],
      [[Value.str "d", Value.int 0], [Value.str "a", Value.int 1]]⟩
    (by rfl)

/-! ### Claim C1: filter-and-recode refines the spec's description -/

/-- Dropping the first cell of each record-shaped row leaves the text and
label cells. -/
theorem c1_drop (rs : List SpecRecord) :
    (rs.map (fun r => [r.rid, r.text, r.label])).map (fun r => r.eraseIdx 0)
      = rs.map (fun r => [r.text, r.label]) := by
  rw [List.map_map]
  rfl

/-- Core list computation of `process_data` on record-shaped rows agrees
pointwise with the spec-side filter-and-recode. -/
theorem c1_core (rs : List SpecRecord) :
    ((rs.map (fun r => [r.text, r.label])).filter
        (fun r => isTargetSentiment (cell r 1))).map
      (fun r => r.set 1 (recodeSentiment (cell r 1)))
    = (filterAndRecodeSpec rs).map (fun p => [p.1, p.2]) := by
  induction rs with
  | nil => rfl
  | cons r rs ih =>
    by_cases h1 : r.label = Value.str "happiness"
    · simp [filterAndRecodeSpec, cell, isTargetSentiment, recodeSentiment,
        h1] at ih
      simp [filterAndRecodeSpec, cell, isTargetSentiment, recodeSentiment,
        h1, ih]
    · by_cases h2 : r.label = Value.str "sadness"
      · simp [filterAndRecodeSpec, cell, isTargetSentiment, recodeSentiment,
          h1, h2] at ih
        simp [filterAndRecodeSpec, cell, isTargetSentiment, recodeSentiment,
          h1, h2, ih]
      · simp [filterAndRecodeSpec, cell, isTargetSentiment, recodeSentiment,
          h1, h2] at ih
        simp [filterAndRecodeSpec, cell, isTargetSentiment, recodeSentiment,
          h1, h2, ih]

/-- Claim C1: on every input table with the source schema, `process_data`
returns exactly the rows whose label is `happiness` or `sadness`, in their
original relative order, with `happiness` recoded to 1 and `sadness` to 0,
the text field untouched, and all other rows absent — the behaviour the
spec-side `filterAndRecodeSpec` describes. -/
theorem c1_theorem (rs : List SpecRecord) :
    process_data (toTable rs) =
      .ok (⟨["text", "sentiment"], rs.map (fun r => [r.text, r.label])⟩,
           ⟨["text", "sentiment"],
             (filterAndRecodeSpec rs).map (fun p => [p.1, p.2])⟩) := by
  have hd : dropColumn (toTable rs) "tweet_id" =
      .ok ⟨["text", "sentiment"],
        (rs.map (fun r => [r.rid, r.text, r.label])).map
          (fun r => r.eraseIdx 0)⟩ := rfl
  have hc : colIndex (⟨["text", "sentiment"],
      (rs.map (fun r => [r.rid, r.text, r.label])).map
        (fun r => r.eraseIdx 0)⟩ : Table) "sentiment" = .ok 1 := rfl
  rw [process_data_eq_of_ok hd hc, c1_drop rs, c1_core rs]

/-! ### The orchestrator: error flow of main -/

theorem pipelineCore_eq_of_params_error {cfg : Option YamlVal}
    {fetched : Except String Table} {e : String}
    (h : load_params cfg = .error e) : pipelineCore cfg fetched = .error e := by
  rw [pipelineCore, h, except_bind_error]

/-- Inversion of a successful pipeline run: every stage succeeded, in
order, and the final pair is the split of the processed table. -/
theorem pipelineCore_ok_inv {cfg : Option YamlVal}
    {fetched : Except String Table} {tr te : Table}
    (h : pipelineCore cfg fetched = .ok (tr, te)) :
    ∃ q t0 d out, load_params cfg = .ok q ∧ fetched = .ok t0 ∧
      process_data t0 = .ok (d, out) ∧
      train_test_split out q 42 = .ok (tr, te) := by
  rw [pipelineCore] at h
  cases hq : load_params cfg with
  | error e => rw [hq, except_bind_error] at h; cases h
  | ok q =>
    rw [hq, except_bind_ok] at h
    cases hf : fetched with
    | error e => rw [read_data, hf, except_bind_error] at h; cases h
    | ok t0 =>
      rw [read_data, hf, except_bind_ok] at h
      cases hp : process_data t0 with
      | error e => rw [hp, except_bind_error] at h; cases h
      | ok p =>
        obtain ⟨d, out⟩ := p
        rw [hp, except_bind_ok] at h
        dsimp only at h
        cases hs : train_test_split out q 42 with
        | error e => rw [hs, except_bind_error] at h; cases h
        | ok st =>
          rw [hs, except_bind_ok] at h
          injection h with h
          exact ⟨q, t0, d, out, rfl, rfl, hp, by rw [hs, h]⟩

/-! ### Claim C4: failure propagation and the orchestrator -/

/-- Claim C4, counterexample: with a missing params file every stage fails,
the orchestrator logs the error, yet `main` completes normally — nothing is
re-raised and no failure indication reaches the caller, contradicting the
claim that a failed run terminates with a non-zero-equivalent failure
indication. -/
theorem c4_counterexample :
    (main none (.error "network unreachable")).errorLogged =
      some "FileNotFoundError" ∧
    (main none (.error "network unreachable")).raisedToCaller = none ∧
    (main none (.error "network unreachable")).filesWritten = [] := by
  refine ⟨by rfl, by rfl, by rfl⟩

/-- Claim C4 as amended: each component re-raises its error unchanged, so a
stage failure reaches `main`'s handler with its message intact and aborts
the remaining stages (nothing is written); but `main` itself catches every
exception, only logs it, and completes normally — no failure indication is
propagated to the caller. -/
theorem c4_theorem (cfg : Option YamlVal) (fetched : Except String Table) :
    (main cfg fetched).raisedToCaller = none ∧
    (∀ e, pipelineCore cfg fetched = .error e →
      main cfg fetched = ⟨none, some e, []⟩) := by
  constructor
  · cases h : pipelineCore cfg fetched with
    | error e => rw [main, h]
    | ok p =>
      obtain ⟨tr, te⟩ := p
      rw [main, h]
  · intro e he
    rw [main, he]

/-- Witness for claim C4's amended theorem at a concrete failing run. -/
theorem c4_theorem_witness :
    (main none (.ok sampleDf)).raisedToCaller = none ∧
    main none (.ok sampleDf) =
      ⟨none, some "FileNotFoundError", []⟩ :=
  ⟨(c4_theorem none (.ok sampleDf)).1,
   (c4_theorem none (.ok sampleDf)).2 "FileNotFoundError" (by rfl)⟩

/-! ### Claim C8: missing test_size key aborts before any write -/

/-- Claim C8: when the params data lacks the nested `test_size` key under
`data_ingestion`, `load_params` raises a `KeyError` naming the missing key
(no default is substituted), and the pipeline writes no files — the write
stage is never reached. -/
theorem c8_theorem (kvs kvs2 : List (String × YamlVal))
    (fetched : Except String Table)
    (h1 : dictGet kvs "data_ingestion" = some (.dict kvs2))
    (h2 : dictGet kvs2 "test_size" = none) :
    load_params (some (.dict kvs)) = .error (keyErrorMsg "test_size") ∧
    (main (some (.dict kvs)) fetched).filesWritten = [] ∧
    (main (some (.dict kvs)) fetched).errorLogged =
      some (keyErrorMsg "test_size") := by
  have hs1 : subscript (.dict kvs) "data_ingestion" = .ok (.dict kvs2) := by
    rw [subscript, h1]
  have hs2 : subscript (.dict kvs2) "test_size" =
      .error (keyErrorMsg "test_size") := by
    rw [subscript, h2]
  have hl : load_params (some (.dict kvs)) =
      .error (keyErrorMsg "test_size") := by
    rw [load_params, hs1, except_bind_ok, hs2, except_bind_error]
  refine ⟨hl, ?_, ?_⟩
  · rw [main, pipelineCore_eq_of_params_error hl]
  · rw [main, pipelineCore_eq_of_params_error hl]

/-- Witness for claim C8 at the concrete config missing `test_size`. -/
theorem c8_theorem_witness :
    load_params (some cfgMissingTestSize) = .error (keyErrorMsg "test_size") ∧
    (main (some cfgMissingTestSize) (.ok sampleDf)).filesWritten = [] ∧
    (main (some cfgMissingTestSize) (.ok sampleDf)).errorLogged =
      some (keyErrorMsg "test_size") :=
  c8_theorem [("data_ingestion", .dict [("other", .num 1)])]
    [("other", .num 1)] (.ok sampleDf) (by rfl) (by rfl)

/-! ### Claim C7: columns of the written artifacts -/

/-- Claim C7, counterexample: on an input carrying an extra column beyond
the required three, both written tables keep the extra column, so the
output columns are not exactly `text` and `sentiment`. -/
theorem c7_counterexample :
    ((main (some cfgOk) (.ok extraColDf)).filesWritten.map
        (fun p => (p.2).cols)) =
      [["text", "sentiment", "extra"], ["text", "sentiment", "extra"]] ∧
    (["text", "sentiment", "extra"] : List String) ≠ ["text", "sentiment"] := by
  refine ⟨by rfl, by decide⟩

/-- Claim C7 as amended: every table written by a pipeline run has the
columns of the fetched table with `tweet_id` removed (and no row-index
column is added): exactly `text` then `sentiment` when the input has only
the three source columns, but extra input columns are carried through. -/
theorem c7_theorem {cfg : Option YamlVal} {fetched : Except String Table}
    {name : String} {tbl : Table}
    (h : (name, tbl) ∈ (main cfg fetched).filesWritten) :
    ∃ t0, fetched = .ok t0 ∧ "tweet_id" ∈ t0.cols ∧
      tbl.cols = t0.cols.erase "tweet_id" := by
  cases hp : pipelineCore cfg fetched with
  | error e =>
    rw [main, hp] at h
    simp at h
  | ok p =>
    obtain ⟨tr, te⟩ := p
    rw [main, hp] at h
    simp only [save_data, List.mem_cons, List.not_mem_nil, or_false,
      Prod.mk.injEq] at h
    obtain ⟨q, t0, d, out, hq, hf, hpd, hs⟩ := pipelineCore_ok_inv hp
    obtain ⟨i, j, hi, hdx, hj, hout⟩ := process_data_ok_inv hpd
    obtain ⟨_, _, _, htr, hte⟩ := train_test_split_ok_inv hs
    have htid : "tweet_id" ∈ t0.cols := mem_of_idxOfCol hi
    have houtcols : out.cols = t0.cols.erase "tweet_id" := by rw [hout]
    rcases h with ⟨_, h2⟩ | ⟨_, h2⟩
    · refine ⟨t0, hf, htid, ?_⟩
      rw [h2, htr]
      exact houtcols
    · refine ⟨t0, hf, htid, ?_⟩
      rw [h2, hte]
      exact houtcols

/-- Witness for claim C7's amended theorem at the concrete run with an
extra column. -/
theorem c7_theorem_witness :
    ∃ t0, (.ok extraColDf : Except String Table) = .ok t0 ∧
      "tweet_id" ∈ t0.cols ∧
      (⟨["text", "sentiment", "extra"],
        [[Value.str "d", Value.int 0, Value.str "w"]]⟩ : Table).cols =
        t0.cols.erase "tweet_id" :=
  @c7_theorem (some cfgOk) (.ok extraColDf) ("data/raw/test.csv")
    ⟨["text", "sentiment", "extra"],
      [[Value.str "d", Value.int 0, Value.str "w"]]⟩ (by decide)
